import Mathlib

set_option autoImplicit false

/-!
Shallow embedding of the Xero Media Accrual plug-in (`src/src/index.ts`,
with the earlier variant in `src/unnamed/part_000`).

Modelling conventions:
* JavaScript numbers are idealised as rationals (`ℚ`); `x.toFixed(2)`
  followed by `Number(...)` is modelled as rounding to 2 decimal places
  with ties going up, matching the ECMAScript tie rule (pick the larger).
* Possibly-`undefined` JS fields are `Option` values; the JS `x || d`
  idiom (which also replaces `0` and `""` by the default) is modelled by
  `jsNum` / `jsStr`.
* The in-memory `Map` `mem.accrualByCampaign` is modelled extensionally
  as a partial function `String → Option ℚ`.
* External Xero API calls are an environment of fallible operations
  (`Except String`); a thrown JS exception is the `.error` case.  The
  externally visible mutations an handler performs are collected as a
  trace of `Action`s; a call that fails performs no action.
* Wall-clock dates (`new Date().toISOString().slice(0,10)`) and the
  activity log are not observable by any claim and are omitted.
-/

namespace XMA

/-- `Number(o || d)` for a possibly-undefined JS number `o`:
`undefined` and `0` are falsy, so both yield the default. -/
def jsNum (o : Option ℚ) (d : ℚ) : ℚ :=
  match o with
  | none => d
  | some v => if v = 0 then d else v

/-- `o || d` for a possibly-undefined JS string `o`:
`undefined` and `""` are falsy, so both yield the default. -/
def jsStr (o : Option String) (d : String) : String :=
  match o with
  | none => d
  | some v => if v = "" then d else v

/-- Truthiness test `!o` for a possibly-undefined JS string. -/
def strFalsy (o : Option String) : Bool :=
  match o with
  | none => true
  | some v => v = ""

/-- `Number((x).toFixed(2))`: round to 2 decimal places, ties upward. -/
def round2 (x : ℚ) : ℚ := ((round (100 * x) : ℤ) : ℚ) / 100

/-- `mem.settings` (account codes, sales-tax name, auto-approve flag). -/
structure Settings where
  revenueCode : String
  costCode : String
  accrualCode : String
  salesTaxName : String
  autoApproveBills : Bool
deriving DecidableEq, Repr

/-- A Xero invoice/bill line item as read from or written to the API. -/
structure LineItem where
  description : Option String
  quantity : Option ℚ
  unitAmount : Option ℚ
  accountCode : Option String
  taxType : Option String
deriving DecidableEq, Repr

/-- A fetched Xero invoice document (the fields the code reads). -/
structure Invoice where
  type : String
  status : Option String
  reference : Option String
  lineItems : List LineItem
  invoiceNumber : Option String
  invoiceID : Option String
deriving DecidableEq, Repr

/-- One entry of `json.events` in a webhook delivery. -/
structure BillEvent where
  resourceType : String
  resourceId : String
deriving DecidableEq, Repr

/-- A manual-journal line (`accountCode` / `lineAmount` / `description`). -/
structure JournalLine where
  accountCode : String
  lineAmount : ℚ
  description : String
deriving DecidableEq, Repr

/-- The invoice payload built by `POST /campaigns`. -/
structure NewInvoice where
  type : String
  contactID : Option String
  dueDate : Option String
  status : String
  reference : String
  lineItems : List LineItem
deriving DecidableEq, Repr

/-- The fields of a created invoice the code reads back. -/
structure CreatedInvoice where
  invoiceNumber : Option String
  invoiceID : Option String
deriving DecidableEq, Repr

/-- A Xero tax rate (`name` / `taxType`). -/
structure TaxRate where
  name : Option String
  taxType : Option String
deriving DecidableEq, Repr

/-- Externally visible mutations performed against the Xero API. -/
inductive Action where
  | createContact (name : String)
  | createInvoice (inv : NewInvoice)
  | updateLines (invoiceId : String) (lines : List LineItem)
  | updateStatus (invoiceId : String) (status : String)
  | createJournal (narration : String) (lines : List JournalLine)
deriving DecidableEq, Repr

/-- Is this action a `createManualJournals` call? -/
def Action.isJournal : Action → Bool
  | .createJournal _ _ => true
  | _ => false

/-- `mem.accrualByCampaign`, extensionally: campaign reference ↦ accrued. -/
def Ledger : Type := String → Option ℚ

/-- The empty ledger (`new Map()` at process start). -/
def Ledger.empty : Ledger := fun _ => none

/-- `mem.accrualByCampaign.set(ref, (mem.accrualByCampaign.get(ref) || 0) + v)`. -/
def ledgerStep (L : Ledger) (ref : String) (v : ℚ) : Ledger :=
  fun r => if r = ref then some ((L ref).getD 0 + v) else L r

/-- Recoding of one bill line in the webhook handler: account code is
replaced by the accrual-control code, the other fields are copied. -/
def recodeLine (s : Settings) (li : LineItem) : LineItem :=
  { description := li.description
    quantity := li.quantity
    unitAmount := li.unitAmount
    accountCode := some s.accrualCode
    taxType := li.taxType }

/-- `newLines.reduce((s, l) => s + Number(l.unitAmount || 0) * Number(l.quantity || 1), 0)`. -/
def netBillOf (lines : List LineItem) : ℚ :=
  lines.foldl (fun acc l => acc + jsNum l.unitAmount 0 * jsNum l.quantity 1) 0

/-- The spec's formula `netBill = Σ(unitAmount × quantity)` taken literally
over the lines' actual values (absent fields contribute 0). -/
def netBillSpec (lines : List LineItem) : ℚ :=
  lines.foldl (fun acc l => acc + l.unitAmount.getD 0 * l.quantity.getD 0) 0

/-- `Number((netBill - accrued).toFixed(2))` with
`accrued = mem.accrualByCampaign.get(ref) || 0`. -/
def varianceOf (L : Ledger) (ref : String) (netBill : ℚ) : ℚ :=
  round2 (netBill - jsNum (L ref) 0)

/-- The variance-journal lines chosen by the sign of the variance. -/
def varianceJournalLines (s : Settings) (ref : String) (v : ℚ) : List JournalLine :=
  if v > 0 then
    [ { accountCode := s.costCode, lineAmount := |v|,
        description := "Accrual variance " ++ ref }
    , { accountCode := s.accrualCode, lineAmount := -|v|,
        description := "Accrual variance " ++ ref } ]
  else
    [ { accountCode := s.accrualCode, lineAmount := |v|,
        description := "Accrual release " ++ ref }
    , { accountCode := s.costCode, lineAmount := -|v|,
        description := "Accrual release " ++ ref } ]

/-- The Xero API as seen by the webhook route: fallible operations.
`updateInvoice` is split by payload shape (line recode vs status change). -/
structure WebhookEnv where
  tenant : Except String String
  getInvoice : String → Except String (Option Invoice)
  updateInvoiceLines : String → List LineItem → Except String Unit
  updateInvoiceStatus : String → String → Except String Unit
  createManualJournal : String → List JournalLine → Except String Unit

/-- The body of the `for (const ev of json.events)` loop in
`POST /webhooks/xero`: filters, line recode, optional auto-approve, and
variance journal.  Returns the actions performed for this event and
`some e` when a call threw (`continue`-style skips return `([], none)`). -/
def processEvent (s : Settings) (L : Ledger) (env : WebhookEnv) (ev : BillEvent) :
    List Action × Option String :=
  if ev.resourceType ≠ "INVOICE" then ([], none)
  else
    match env.getInvoice ev.resourceId with
    | .error e => ([], some e)
    | .ok none => ([], none)
    | .ok (some inv) =>
      if inv.type ≠ "ACCPAY" then ([], none)
      else
        let status := jsStr inv.status ""
        if ¬ (status = "DRAFT" ∨ status = "SUBMITTED") then ([], none)
        else
          let campaignRef := jsStr inv.reference ""
          if campaignRef = "" then ([], none)
          else
            let newLines := inv.lineItems.map (recodeLine s)
            match env.updateInvoiceLines ev.resourceId newLines with
            | .error e => ([], some e)
            | .ok _ =>
              let a1 := [Action.updateLines ev.resourceId newLines]
              let afterApprove : List Action × Option String :=
                if s.autoApproveBills then
                  match env.updateInvoiceStatus ev.resourceId "AUTHORISED" with
                  | .error e => (a1, some e)
                  | .ok _ => (a1 ++ [Action.updateStatus ev.resourceId "AUTHORISED"], none)
                else (a1, none)
              match afterApprove with
              | (a2, some e) => (a2, some e)
              | (a2, none) =>
                let variance := varianceOf L campaignRef (netBillOf newLines)
                if variance ≠ 0 then
                  match env.createManualJournal
                      ("Accrual variance for " ++ campaignRef)
                      (varianceJournalLines s campaignRef variance) with
                  | .error e => (a2, some e)
                  | .ok _ =>
                    (a2 ++ [Action.createJournal
                        ("Accrual variance for " ++ campaignRef)
                        (varianceJournalLines s campaignRef variance)], none)
                else (a2, none)

/-- The event loop: the whole loop sits inside one `try`, so the first
thrown error stops the remaining events. -/
def processEvents (s : Settings) (L : Ledger) (env : WebhookEnv) :
    List BillEvent → List Action × Option String
  | [] => ([], none)
  | ev :: rest =>
    match processEvent s L env ev with
    | (a, some e) => (a, some e)
    | (a, none) =>
      match processEvents s L env rest with
      | (b, e) => (a ++ b, e)

/-- `crypto.timingSafeEqual`: throws on length mismatch, else compares. -/
def timingSafeEqual (a b : List UInt8) : Except String Bool :=
  if a.length = b.length then .ok (a = b) else .error "length mismatch"

/-- `verifyXeroWebhookSignature`, with the HMAC-SHA256/base64 digest
abstracted as a parameter `hmacB64 : key → rawBody → digest bytes`.
The signature header is taken as its byte sequence.  An unset or empty
`XERO_WEBHOOK_KEY` is `none` / `some ""` (both falsy). -/
def verifyXeroWebhookSignature (hmacB64 : String → List UInt8 → List UInt8)
    (key : Option String) (signature : List UInt8) (rawBody : List UInt8) : Bool :=
  match key with
  | none => false
  | some k =>
    if k = "" then false
    else
      match timingSafeEqual signature (hmacB64 k rawBody) with
      | .ok b => b
      | .error _ => false

/-- The full `POST /webhooks/xero` handler: signature check, JSON parse
(abstracted as `parse`, yielding `json.events || []`), tenant resolution,
then the event loop.  Returns HTTP status, performed actions, and the
ledger as left in memory (the route never writes it). -/
def handleWebhook (hmacB64 : String → List UInt8 → List UInt8) (key : Option String)
    (parse : List UInt8 → Except String (List BillEvent))
    (s : Settings) (L : Ledger) (env : WebhookEnv)
    (signature : List UInt8) (rawBody : List UInt8) :
    Nat × List Action × Ledger :=
  if verifyXeroWebhookSignature hmacB64 key signature rawBody then
    match parse rawBody with
    | .error _ => (500, [], L)
    | .ok events =>
      match env.tenant with
      | .error _ => (500, [], L)
      | .ok _ =>
        match processEvents s L env events with
        | (acts, some _) => (500, acts, L)
        | (acts, none) => (200, acts, L)
  else (401, [], L)

/-- The body of `POST /campaigns` (missing fields are `none`). -/
structure CampaignRequest where
  clientContactId : Option String
  clientContactName : Option String
  campaignRef : Option String
  saleNet : Option ℚ
  expectedCostNet : Option ℚ
  dueDate : Option String
  description : Option String
  salesTaxName : Option String
deriving DecidableEq, Repr

/-- The Xero API as seen by the campaign route: fallible operations. -/
structure CampaignEnv where
  tenant : Except String String
  createContacts : String → Except String (Option String)
  getTaxRates : Except String (List TaxRate)
  createInvoices : NewInvoice → Except String (Option CreatedInvoice)
  createManualJournal : String → List JournalLine → Except String Unit

/-- `findTaxRateByName`: re-resolves the tenant, lists tax rates, and
returns the first case-insensitive exact name match. -/
def findTaxRateByName (env : CampaignEnv) (name : Option String) :
    Except String (Option TaxRate) :=
  if strFalsy name then .ok none
  else
    match env.tenant with
    | .error e => .error e
    | .ok _ =>
      match env.getTaxRates with
      | .error e => .error e
      | .ok rates =>
        .ok (rates.find? (fun r =>
          (jsStr r.name "").toLower = (jsStr name "").toLower))

/-- The JSON body of a successful `POST /campaigns` response. -/
structure CampaignResponse where
  invoiceNumber : Option String
  invoiceId : Option String
  campaignRef : String
  accrued : ℚ
deriving DecidableEq, Repr

/-- Outcome of `POST /campaigns`: 400 validation error, 200 success, or
500 when an external call threw (the catch block). -/
inductive CampaignOutcome where
  | badRequest (msg : String)
  | ok (resp : CampaignResponse)
  | serverError (msg : String)
deriving DecidableEq, Repr

/-- Is this outcome the 500 branch (a surfaced external failure)? -/
def CampaignOutcome.isServerError : CampaignOutcome → Bool
  | .serverError _ => true
  | _ => false

/-- Contact resolution in `POST /campaigns`: an existing truthy
`clientContactId` is used as-is, otherwise a contact is created from
`clientContactName`.  Returns the contact id and the actions performed. -/
def contactStep (env : CampaignEnv) (r : CampaignRequest) :
    Except String (Option String × List Action) :=
  if strFalsy r.clientContactId then
    match env.createContacts (jsStr r.clientContactName "") with
    | .error e => .error e
    | .ok cid => .ok (cid, [Action.createContact (jsStr r.clientContactName "")])
  else .ok (r.clientContactId, [])

/-- Tax resolution in `POST /campaigns`: with a truthy tax name, look the
rate up and keep its `taxType` when that is truthy. -/
def taxStep (env : CampaignEnv) (s : Settings) (r : CampaignRequest) :
    Except String (Option String) :=
  if jsStr r.salesTaxName s.salesTaxName = "" then .ok none
  else
    match findTaxRateByName env (some (jsStr r.salesTaxName s.salesTaxName)) with
    | .error e => .error e
    | .ok t =>
      .ok (match t with
           | some tr => if strFalsy tr.taxType then none else tr.taxType
           | none => none)

/-- The ACCREC sales invoice built by `POST /campaigns`. -/
def campaignInvoice (s : Settings) (r : CampaignRequest) (contactId : Option String)
    (lineTax : Option String) : NewInvoice :=
  { type := "ACCREC"
    contactID := contactId
    dueDate := r.dueDate
    status := "AUTHORISED"
    reference := jsStr r.campaignRef ""
    lineItems :=
      [ { description := some (jsStr r.description
            ("Media campaign " ++ jsStr r.campaignRef ""))
          quantity := some 1
          unitAmount := some (r.saleNet.getD 0)
          accountCode := some s.revenueCode
          taxType := lineTax } ] }

/-- The accrual-journal lines of `POST /campaigns` (Dr cost, Cr accrual). -/
def accrualJournalLines (s : Settings) (ref : String) (cost : ℚ) : List JournalLine :=
  [ { accountCode := s.costCode, lineAmount := cost,
      description := "Accrued cost " ++ ref }
  , { accountCode := s.accrualCode, lineAmount := -cost,
      description := "Accrued cost " ++ ref } ]

/-- The `POST /campaigns` handler: validation, contact resolution, tax
lookup, sales-invoice creation, accrual journal, then ledger increment.
Returns the HTTP outcome, the ledger after the call, and the trace of
external mutations performed. -/
def createCampaign (env : CampaignEnv) (s : Settings) (L : Ledger)
    (r : CampaignRequest) : CampaignOutcome × Ledger × List Action :=
  match env.tenant with
  | .error e => (.serverError e, L, [])
  | .ok _ =>
    if strFalsy r.campaignRef ∨ r.saleNet = none ∨ r.expectedCostNet = none ∨
        (strFalsy r.clientContactId ∧ strFalsy r.clientContactName) then
      (.badRequest
        "Required: campaignRef, saleNet, expectedCostNet, clientContactId or clientContactName",
       L, [])
    else
      match contactStep env r with
      | .error e => (.serverError e, L, [])
      | .ok (contactId, contactActs) =>
        match taxStep env s r with
        | .error e => (.serverError e, L, contactActs)
        | .ok lineTax =>
          match env.createInvoices (campaignInvoice s r contactId lineTax) with
          | .error e => (.serverError e, L, contactActs)
          | .ok created =>
            match env.createManualJournal
                ("Accrue expected media cost for " ++ jsStr r.campaignRef "")
                (accrualJournalLines s (jsStr r.campaignRef "") (r.expectedCostNet.getD 0)) with
            | .error e =>
              (.serverError e, L,
               contactActs ++ [Action.createInvoice (campaignInvoice s r contactId lineTax)])
            | .ok _ =>
              (.ok { invoiceNumber := created.bind (fun c => c.invoiceNumber)
                     invoiceId := created.bind (fun c => c.invoiceID)
                     campaignRef := jsStr r.campaignRef ""
                     accrued := r.expectedCostNet.getD 0 },
               ledgerStep L (jsStr r.campaignRef "") (r.expectedCostNet.getD 0),
               contactActs ++ [Action.createInvoice (campaignInvoice s r contactId lineTax)] ++
                 [Action.createJournal
                   ("Accrue expected media cost for " ++ jsStr r.campaignRef "")
                   (accrualJournalLines s (jsStr r.campaignRef "") (r.expectedCostNet.getD 0))])

/-- The ledger effect of a sequence of successful campaign creations
(`(ref, expectedCostNet)` pairs), each applying `ledgerStep`. -/
def applyCampaigns (L : Ledger) : List (String × ℚ) → Ledger
  | [] => L
  | c :: rest => applyCampaigns (ledgerStep L c.1 c.2) rest

/-! ## Helper lemmas -/

/-- `x || 0` on a possibly-undefined number is just the 0-default. -/
theorem jsNum_zero_default (o : Option ℚ) : jsNum o 0 = o.getD 0 := by
  cases o with
  | none => rfl
  | some v =>
    by_cases h : v = 0 <;> simp [jsNum, h]

/-- Shape of `processEvent` on an event that passes every filter, when
the external calls it makes succeed. -/
theorem processEvent_processed (s : Settings) (L : Ledger) (env : WebhookEnv)
    (ev : BillEvent) (inv : Invoice)
    (h1 : ev.resourceType = "INVOICE")
    (h2 : env.getInvoice ev.resourceId = .ok (some inv))
    (h3 : inv.type = "ACCPAY")
    (h4 : jsStr inv.status "" = "DRAFT" ∨ jsStr inv.status "" = "SUBMITTED")
    (h5 : jsStr inv.reference "" ≠ "")
    (h6 : env.updateInvoiceLines ev.resourceId (inv.lineItems.map (recodeLine s)) = .ok ())
    (h7 : s.autoApproveBills = true →
      env.updateInvoiceStatus ev.resourceId "AUTHORISED" = .ok ())
    (h8 : env.createManualJournal
        ("Accrual variance for " ++ jsStr inv.reference "")
        (varianceJournalLines s (jsStr inv.reference "")
          (varianceOf L (jsStr inv.reference "")
            (netBillOf (inv.lineItems.map (recodeLine s))))) = .ok ()) :
    processEvent s L env ev =
      ([Action.updateLines ev.resourceId (inv.lineItems.map (recodeLine s))] ++
        (if s.autoApproveBills then [Action.updateStatus ev.resourceId "AUTHORISED"] else []) ++
        (if varianceOf L (jsStr inv.reference "")
             (netBillOf (inv.lineItems.map (recodeLine s))) = 0 then []
         else [Action.createJournal ("Accrual variance for " ++ jsStr inv.reference "")
            (varianceJournalLines s (jsStr inv.reference "")
              (varianceOf L (jsStr inv.reference "")
                (netBillOf (inv.lineItems.map (recodeLine s)))))]),
       none) := by
  unfold processEvent
  rw [h1, h2]
  simp only [ne_eq, not_true_eq_false, if_false, ite_false, reduceIte]
  rw [if_neg (by simp [h3]), if_neg (not_not_intro h4), if_neg h5, h6]
  by_cases ha : s.autoApproveBills
  · rw [h7 ha]
    simp only [ha, if_true, ite_true, reduceIte]
    by_cases hv : varianceOf L (jsStr inv.reference "")
        (netBillOf (inv.lineItems.map (recodeLine s))) = 0
    · simp [hv]
    · simp only [hv, if_neg hv, ite_false, not_false_eq_true, if_true, ite_true, reduceIte]
      rw [h8]
  · simp only [ha, if_false, ite_false, Bool.false_eq_true, reduceIte]
    by_cases hv : varianceOf L (jsStr inv.reference "")
        (netBillOf (inv.lineItems.map (recodeLine s))) = 0
    · simp [hv]
    · simp only [hv, if_neg hv, ite_false, not_false_eq_true, if_true, ite_true, reduceIte]
      rw [h8]
      simp

/-- Unfolding equation for `processEvents` on a non-empty batch. -/
theorem processEvents_cons (s : Settings) (L : Ledger) (env : WebhookEnv)
    (ev : BillEvent) (rest : List BillEvent) :
    processEvents s L env (ev :: rest) =
      match processEvent s L env ev with
      | (a, some e) => (a, some e)
      | (a, none) => (a ++ (processEvents s L env rest).1, (processEvents s L env rest).2) := by
  rcases hev : processEvent s L env ev with ⟨a, e⟩
  cases e <;> simp [processEvents, hev]

/-- Splitting the event loop: if the first chunk raises no error, the
second chunk is processed with the same ledger and its results appended. -/
theorem processEvents_append_ok (s : Settings) (L : Ledger) (env : WebhookEnv)
    (xs ys : List BillEvent) (h : (processEvents s L env xs).2 = none) :
    processEvents s L env (xs ++ ys) =
      ((processEvents s L env xs).1 ++ (processEvents s L env ys).1,
       (processEvents s L env ys).2) := by
  induction xs with
  | nil => simp [processEvents]
  | cons ev rest ih =>
    rcases hev : processEvent s L env ev with ⟨a, e⟩
    cases e with
    | some msg =>
      rw [processEvents_cons, hev] at h
      simp at h
    | none =>
      rw [processEvents_cons, hev] at h
      simp only at h
      have ihe := ih h
      simp only [List.cons_append, processEvents_cons, hev, ihe]
      simp [List.append_assoc]

/-- A thrown error stops the loop: events after the first chunk's error
are never processed. -/
theorem processEvents_append_err (s : Settings) (L : Ledger) (env : WebhookEnv)
    (xs ys : List BillEvent) (e : String)
    (h : (processEvents s L env xs).2 = some e) :
    processEvents s L env (xs ++ ys) = processEvents s L env xs := by
  induction xs with
  | nil => simp [processEvents] at h
  | cons ev rest ih =>
    rcases hev : processEvent s L env ev with ⟨a, e1⟩
    cases e1 with
    | some msg =>
      rw [List.cons_append, processEvents_cons, hev, processEvents_cons, hev]
    | none =>
      rw [processEvents_cons, hev] at h
      simp only at h
      have ihe := ih h
      simp only [List.cons_append, processEvents_cons, hev, ihe]

/-- Value of the accrual ledger after a sequence of `ledgerStep`s: the
entry for `ref` collects the sum of amounts submitted for `ref`. -/
theorem applyCampaigns_lookup (calls : List (String × ℚ)) (L : Ledger) (ref : String) :
    applyCampaigns L calls ref =
      if (calls.filter (fun c => c.1 = ref)).isEmpty then L ref
      else some ((L ref).getD 0 +
        ((calls.filter (fun c => c.1 = ref)).map Prod.snd).sum) := by
  induction calls generalizing L with
  | nil => simp [applyCampaigns]
  | cons c rest ih =>
    rw [show applyCampaigns L (c :: rest) = applyCampaigns (ledgerStep L c.1 c.2) rest from rfl,
      ih]
    by_cases hc : c.1 = ref
    · subst hc
      have hLs : ledgerStep L c.1 c.2 c.1 = some ((L c.1).getD 0 + c.2) := by
        simp [ledgerStep]
      have hfc : List.filter (fun x => decide (x.1 = c.1)) (c :: rest) =
          c :: List.filter (fun x => decide (x.1 = c.1)) rest := by
        simp [List.filter_cons]
      by_cases hrest : (List.filter (fun x => decide (x.1 = c.1)) rest).isEmpty = true
      · have hnil : List.filter (fun x => decide (x.1 = c.1)) rest = [] := by
          simpa [List.isEmpty_iff] using hrest
        simp [hnil, hLs, hfc]
      · simp [hrest, hLs, hfc, add_assoc]
    · have hLs : ledgerStep L c.1 c.2 ref = L ref := by
        simp [ledgerStep, Ne.symm hc]
      have hfc : List.filter (fun x => decide (x.1 = ref)) (c :: rest) =
          List.filter (fun x => decide (x.1 = ref)) rest := by
        simp [List.filter_cons, hc]
      rw [hfc, hLs]

/-- The contact-resolution step performs at most a `createContacts` call,
never a journal posting. -/
theorem contactStep_actions (env : CampaignEnv) (r : CampaignRequest)
    (cid : Option String) (acts : List Action)
    (h : contactStep env r = .ok (cid, acts)) :
    ∀ a ∈ acts, a.isJournal = false := by
  unfold contactStep at h
  repeat' split at h
  all_goals simp_all
  all_goals
    try (obtain ⟨h1, h2⟩ := h
         subst h2
         simp [Action.isJournal])

/-- A successful campaign creation updates the ledger by exactly one
`ledgerStep` with the submitted reference and expected cost. -/
theorem createCampaign_ok_ledger (env : CampaignEnv) (s : Settings) (L : Ledger)
    (r : CampaignRequest) (resp : CampaignResponse) (L2 : Ledger) (acts : List Action)
    (h : createCampaign env s L r = (.ok resp, L2, acts)) :
    L2 = ledgerStep L (jsStr r.campaignRef "") (r.expectedCostNet.getD 0) := by
  unfold createCampaign at h
  repeat' split at h
  all_goals simp_all

/-- A failed campaign creation (500 outcome) leaves the ledger unchanged
and never reaches the accrual-journal step. -/
theorem createCampaign_serverError_frame (env : CampaignEnv) (s : Settings) (L : Ledger)
    (r : CampaignRequest) (m : String) (L2 : Ledger) (acts : List Action)
    (h : createCampaign env s L r = (.serverError m, L2, acts)) :
    L2 = L ∧ ∀ a ∈ acts, a.isJournal = false := by
  unfold createCampaign at h
  repeat' split at h
  all_goals simp_all
  all_goals
    try exact fun a ha => contactStep_actions env r _ _ (by assumption) a ha
  all_goals
    (obtain ⟨h1, h2, h3⟩ := h
     subst h3
     intro a ha
     rcases List.mem_append.mp ha with hm | hm
     · exact contactStep_actions env r _ _ (by assumption) a hm
     · simp_all [Action.isJournal])

/-! ## Concrete fixtures used by witnesses and counterexamples -/

/-- A concrete settings value (the defaults of `mem.settings`). -/
def wSettings : Settings :=
  { revenueCode := "400", costCode := "500", accrualCode := "850",
    salesTaxName := "20% (VAT on Income)", autoApproveBills := true }

/-- A draft ACCPAY bill with the given lines and reference. -/
def mkInv (lines : List LineItem) (ref : String) : Invoice :=
  { type := "ACCPAY", status := some "DRAFT", reference := some ref,
    lineItems := lines, invoiceNumber := none, invoiceID := none }

/-- A webhook environment where every call succeeds and every fetch
returns the given invoice. -/
def okEnv (inv : Invoice) : WebhookEnv :=
  { tenant := .ok "t"
    getInvoice := fun _ => .ok (some inv)
    updateInvoiceLines := fun _ _ => .ok ()
    updateInvoiceStatus := fun _ _ => .ok ()
    createManualJournal := fun _ _ => .ok () }

/-- A ledger holding a single campaign entry. -/
def singleLedger (ref : String) (v : ℚ) : Ledger :=
  fun r => if r = ref then some v else none

/-! ## Claim theorems -/

/-- C3: for every inbound bill event, no external mutation (no line
update, no status change, no journal) is performed when the resource
type is not `INVOICE`, or the fetched document is not `ACCPAY`, or its
status is neither `DRAFT` nor `SUBMITTED`, or its reference is empty. -/
theorem claim3_filters_no_mutation (s : Settings) (L : Ledger) (env : WebhookEnv)
    (ev : BillEvent) :
    (ev.resourceType ≠ "INVOICE" → processEvent s L env ev = ([], none)) ∧
    (∀ inv, env.getInvoice ev.resourceId = .ok (some inv) →
      (inv.type ≠ "ACCPAY" ∨
       ¬(jsStr inv.status "" = "DRAFT" ∨ jsStr inv.status "" = "SUBMITTED") ∨
       jsStr inv.reference "" = "") →
      processEvent s L env ev = ([], none)) := by
  constructor
  · intro h
    unfold processEvent
    simp [h]
  · intro inv hinv hbad
    unfold processEvent
    by_cases hres : ev.resourceType = "INVOICE"
    · rcases hbad with hb | hb | hb <;> simp [hres, hinv, hb, ite_self]
    · simp [hres]

/-- C3 witness: a SUBMITTED sales document (ACCREC) is ignored. -/
theorem claim3_witness :
    processEvent wSettings Ledger.empty (okEnv
      { type := "ACCREC", status := some "SUBMITTED", reference := some "R",
        lineItems := [], invoiceNumber := none, invoiceID := none })
      { resourceType := "INVOICE", resourceId := "b1" } = ([], none) := by
  apply (claim3_filters_no_mutation wSettings Ledger.empty (okEnv
      { type := "ACCREC", status := some "SUBMITTED", reference := some "R",
        lineItems := [], invoiceNumber := none, invoiceID := none })
      { resourceType := "INVOICE", resourceId := "b1" }).2
  · rfl
  · left
    simp

/-- C4: after any sequence of successful campaign-creation calls starting
from the empty ledger, the accrued entry for a reference equals the sum of
all `expectedCostNet` values submitted for it (absent until the first
call); each successful call performs exactly one additive `ledgerStep`. -/
theorem claim4_ledger_sum :
    (∀ env s L r resp L2 acts, createCampaign env s L r = (.ok resp, L2, acts) →
      L2 = ledgerStep L (jsStr r.campaignRef "") (r.expectedCostNet.getD 0)) ∧
    (∀ calls ref, applyCampaigns Ledger.empty calls ref =
      if (calls.filter (fun c => c.1 = ref)).isEmpty then none
      else some (((calls.filter (fun c => c.1 = ref)).map Prod.snd).sum)) := by
  constructor
  · exact fun env s L r resp L2 acts h => createCampaign_ok_ledger env s L r resp L2 acts h
  · intro calls ref
    rw [applyCampaigns_lookup]
    simp [Ledger.empty]

/-- A well-formed campaign-creation request. -/
def wReq : CampaignRequest :=
  { clientContactId := none, clientContactName := some "Acme",
    campaignRef := some "A", saleNet := some 10000, expectedCostNet := some 8000,
    dueDate := none, description := none, salesTaxName := none }

/-- A campaign environment where every call succeeds. -/
def okCampEnv : CampaignEnv :=
  { tenant := .ok "t"
    createContacts := fun _ => .ok (some "c1")
    getTaxRates := .ok [{ name := some "20% (VAT on Income)", taxType := some "OUTPUT2" }]
    createInvoices := fun _ =>
      .ok (some { invoiceNumber := some "INV-1", invoiceID := some "iid" })
    createManualJournal := fun _ _ => .ok () }

/-- C4 witness: two submissions for "A" and one for "B" leave
`A ↦ 8000 + 2 = 8002`, and "C" has no entry. -/
theorem claim4_witness :
    applyCampaigns Ledger.empty [("A", 8000), ("B", 5), ("A", 2)] "A" = some 8002 ∧
    applyCampaigns Ledger.empty [("A", 8000), ("B", 5), ("A", 2)] "C" = none ∧
    (createCampaign okCampEnv wSettings Ledger.empty wReq).2.1 =
      ledgerStep Ledger.empty "A" 8000 := by
  have hcc : ∃ resp acts, createCampaign okCampEnv wSettings Ledger.empty wReq =
      (.ok resp, (createCampaign okCampEnv wSettings Ledger.empty wReq).2.1, acts) := by
    refine ⟨{ invoiceNumber := some "INV-1", invoiceId := some "iid",
              campaignRef := "A", accrued := 8000 }, ?_, ?_⟩
    · exact (createCampaign okCampEnv wSettings Ledger.empty wReq).2.2
    · simp +decide [createCampaign, contactStep, taxStep, findTaxRateByName,
        okCampEnv, wReq, wSettings, jsStr, strFalsy, campaignInvoice, accrualJournalLines]
  refine ⟨?_, ?_, ?_⟩
  · rw [claim4_ledger_sum.2 [("A", 8000), ("B", 5), ("A", 2)] "A"]
    simp +decide [List.filter_cons]
    norm_num
  · rw [claim4_ledger_sum.2 [("A", 8000), ("B", 5), ("A", 2)] "C"]
    simp +decide [List.filter_cons]
  · obtain ⟨resp, acts, h⟩ := hcc
    have := claim4_ledger_sum.1 okCampEnv wSettings Ledger.empty wReq resp
      (createCampaign okCampEnv wSettings Ledger.empty wReq).2.1 acts h
    rw [this]
    simp [wReq, jsStr]

/-- C9: in campaign creation any external-call failure surfaces as the
500 outcome with the ledger untouched and no accrual journal recorded;
the ledger is written only on the fully successful path, as its final
step. -/
theorem claim9_failure_aborts (env : CampaignEnv) (s : Settings) (L : Ledger)
    (r : CampaignRequest) :
    (∀ m L2 acts, createCampaign env s L r = (.serverError m, L2, acts) →
      L2 = L ∧ ∀ a ∈ acts, a.isJournal = false) ∧
    (∀ m, env.tenant = .error m → createCampaign env s L r = (.serverError m, L, [])) ∧
    (∀ resp L2 acts, createCampaign env s L r = (.ok resp, L2, acts) →
      L2 = ledgerStep L (jsStr r.campaignRef "") (r.expectedCostNet.getD 0)) := by
  refine ⟨fun m L2 acts h => createCampaign_serverError_frame env s L r m L2 acts h,
    ?_,
    fun resp L2 acts h => createCampaign_ok_ledger env s L r resp L2 acts h⟩
  intro m hm
  unfold createCampaign
  rw [hm]

/-- A campaign environment whose invoice creation fails. -/
def failCampEnv : CampaignEnv :=
  { tenant := .ok "t"
    createContacts := fun _ => .ok (some "c1")
    getTaxRates := .ok []
    createInvoices := fun _ => .error "invoice boom"
    createManualJournal := fun _ _ => .ok () }

/-- C9 witness: a failing invoice-creation call yields the 500 outcome,
an unchanged ledger, and no accrual journal. -/
theorem claim9_witness :
    createCampaign failCampEnv wSettings Ledger.empty wReq =
      (.serverError "invoice boom", Ledger.empty, [Action.createContact "Acme"]) ∧
    (∀ a ∈ [Action.createContact "Acme"], a.isJournal = false) := by
  have hcc : createCampaign failCampEnv wSettings Ledger.empty wReq =
      (.serverError "invoice boom", Ledger.empty, [Action.createContact "Acme"]) := by
    simp +decide [createCampaign, contactStep, taxStep, findTaxRateByName,
      failCampEnv, wReq, wSettings, jsStr, strFalsy]
  exact ⟨hcc, ((claim9_failure_aborts failCampEnv wSettings Ledger.empty wReq).1
    "invoice boom" Ledger.empty [Action.createContact "Acme"] hcc).2⟩

/-- A one-line bill with the given net unit amount. -/
def vLine (u : ℚ) : LineItem :=
  { description := some "ads", quantity := some 1, unitAmount := some u,
    accountCode := some "500", taxType := some "INPUT2" }

/-- A one-line draft ACCPAY bill. -/
def vInv (u : ℚ) (ref : String) : Invoice := mkInv [vLine u] ref

/-- A webhook environment in which fetching bill `b1` throws and any
other fetch returns a processable bill. -/
def failWebEnv : WebhookEnv :=
  { tenant := .ok "t"
    getInvoice := fun invoiceId =>
      if invoiceId = "b1" then .error "boom" else .ok (some (vInv 8500 "REF"))
    updateInvoiceLines := fun _ _ => .ok ()
    updateInvoiceStatus := fun _ _ => .ok ()
    createManualJournal := fun _ _ => .ok () }

/-- C5 counterexample: in a two-event delivery where fetching the first
bill throws, the second event — which on its own would be fully processed
with actions — is never processed: the loop returns the error with no
actions at all. -/
theorem claim5_counterexample :
    processEvents wSettings Ledger.empty failWebEnv
      [{ resourceType := "INVOICE", resourceId := "b1" },
       { resourceType := "INVOICE", resourceId := "b2" }] = ([], some "boom") ∧
    (processEvent wSettings Ledger.empty failWebEnv
      { resourceType := "INVOICE", resourceId := "b2" }).1 ≠ [] := by
  have h1 : processEvent wSettings Ledger.empty failWebEnv
      { resourceType := "INVOICE", resourceId := "b1" } = ([], some "boom") := by
    simp +decide [processEvent, failWebEnv]
  constructor
  · rw [processEvents_cons, h1]
  · have hv : varianceOf Ledger.empty "REF"
        (netBillOf (List.map (recodeLine wSettings) [vLine 8500])) = 8500 := by
      simp [varianceOf, netBillOf, jsNum, Ledger.empty, recodeLine, vLine, round2, round_eq]
      norm_num
    have h2 := processEvent_processed wSettings Ledger.empty failWebEnv
      { resourceType := "INVOICE", resourceId := "b2" } (vInv 8500 "REF")
      rfl (by simp +decide [failWebEnv]) rfl (by simp [vInv, mkInv, jsStr])
      (by simp [vInv, mkInv, jsStr]) rfl (fun _ => rfl) rfl
    rw [show (vInv 8500 "REF").lineItems = [vLine 8500] from rfl] at h2
    rw [h2]
    simp

/-- C5 amended: a thrown failure while processing one event aborts the
processing of all remaining events in the batch (the whole loop runs
under a single error handler); only filter-skips and missing documents
let later events proceed. -/
theorem claim5_amended_abort (s : Settings) (L : Ledger) (env : WebhookEnv)
    (pre : List BillEvent) (ev : BillEvent) (rest : List BillEvent) (msg : String)
    (hpre : (processEvents s L env pre).2 = none)
    (hev : (processEvent s L env ev).2 = some msg) :
    processEvents s L env (pre ++ ev :: rest) =
      ((processEvents s L env pre).1 ++ (processEvent s L env ev).1, some msg) := by
  rw [processEvents_append_ok s L env pre (ev :: rest) hpre]
  rcases he : processEvent s L env ev with ⟨a, e⟩
  rw [he] at hev
  simp only at hev
  subst hev
  rw [processEvents_cons, he]

/-- C5 amended witness: with the failing event first, nothing of the rest
of the batch is processed. -/
theorem claim5_amended_witness :
    processEvents wSettings Ledger.empty failWebEnv
      ([] ++ { resourceType := "INVOICE", resourceId := "b1" } ::
        [{ resourceType := "INVOICE", resourceId := "b2" }]) = ([], some "boom") := by
  have h1 : processEvent wSettings Ledger.empty failWebEnv
      { resourceType := "INVOICE", resourceId := "b1" } = ([], some "boom") := by
    simp +decide [processEvent, failWebEnv]
  have h := claim5_amended_abort wSettings Ledger.empty failWebEnv []
    { resourceType := "INVOICE", resourceId := "b1" }
    [{ resourceType := "INVOICE", resourceId := "b2" }] "boom" rfl (by rw [h1])
  rw [h, h1]
  rfl

/-- C6: the signature verifier is total (it never throws) and returns
not-authentic when the shared secret is unconfigured or empty, when the
signature is empty (any real digest being non-empty), when the signature
differs from the digest, or when the byte comparison errors on a length
mismatch; and a request failing verification is answered 401 with no
event processed. -/
theorem claim6_signature_fail_closed (hmacB64 : String → List UInt8 → List UInt8)
    (key : Option String) (k : String) (sig body : List UInt8)
    (parse : List UInt8 → Except String (List BillEvent))
    (s : Settings) (L : Ledger) (env : WebhookEnv) :
    verifyXeroWebhookSignature hmacB64 none sig body = false ∧
    verifyXeroWebhookSignature hmacB64 (some "") sig body = false ∧
    (sig = [] → hmacB64 k body ≠ [] →
      verifyXeroWebhookSignature hmacB64 (some k) sig body = false) ∧
    (sig ≠ hmacB64 k body →
      verifyXeroWebhookSignature hmacB64 (some k) sig body = false) ∧
    (sig.length ≠ (hmacB64 k body).length →
      verifyXeroWebhookSignature hmacB64 (some k) sig body = false) ∧
    (verifyXeroWebhookSignature hmacB64 key sig body = false →
      handleWebhook hmacB64 key parse s L env sig body = (401, [], L)) := by
  have h4 : sig ≠ hmacB64 k body →
      verifyXeroWebhookSignature hmacB64 (some k) sig body = false := by
    intro hne
    unfold verifyXeroWebhookSignature timingSafeEqual
    by_cases hk : k = ""
    · simp [hk]
    · by_cases hlen : sig.length = (hmacB64 k body).length
      · simp [hk, hlen, hne]
      · simp [hk, hlen]
  refine ⟨rfl, by simp [verifyXeroWebhookSignature], ?_, h4, ?_, ?_⟩
  · intro hsig hdig
    apply h4
    rw [hsig]
    exact fun h => hdig h.symm
  · intro hlen
    unfold verifyXeroWebhookSignature timingSafeEqual
    by_cases hk : k = ""
    · simp [hk]
    · simp [hk, hlen]
  · intro hv
    unfold handleWebhook
    rw [hv]
    simp

/-- C6 witness: with secret "k", digest bytes `[1, 2]` and an empty
signature header, verification fails and the handler answers 401 with no
actions. -/
theorem claim6_witness :
    verifyXeroWebhookSignature (fun _ _ => [1, 2]) (some "k") [] [9] = false ∧
    handleWebhook (fun _ _ => [1, 2]) (some "k")
      (fun _ => .ok [{ resourceType := "INVOICE", resourceId := "b1" }])
      wSettings Ledger.empty failWebEnv [] [9] = (401, [], Ledger.empty) := by
  have h := claim6_signature_fail_closed (fun _ _ => [1, 2]) (some "k") "k" [] [9]
    (fun _ => .ok [{ resourceType := "INVOICE", resourceId := "b1" }])
    wSettings Ledger.empty failWebEnv
  have hv := h.2.2.1 rfl (by decide)
  exact ⟨hv, h.2.2.2.2.2 hv⟩

/-- C7: the webhook flow reads but never writes the accrual ledger — the
handler hands the ledger back unchanged — and a bill event processed
twice in one batch recomputes against the same original ledger, producing
the identical actions (journal included) a second time. -/
theorem claim7_ledger_readonly (hmacB64 : String → List UInt8 → List UInt8)
    (key : Option String) (parse : List UInt8 → Except String (List BillEvent))
    (s : Settings) (L : Ledger) (env : WebhookEnv) (sig body : List UInt8) :
    (handleWebhook hmacB64 key parse s L env sig body).2.2 = L ∧
    (∀ ev a, processEvent s L env ev = (a, none) →
      processEvents s L env [ev, ev] = (a ++ a, none)) := by
  constructor
  · unfold handleWebhook
    repeat' split
    all_goals rfl
  · intro ev a h
    rw [processEvents_cons, h]
    simp only
    rw [processEvents_cons, h]
    simp [processEvents]

/-- C7 witness: a delivered batch leaves the one-entry ledger intact, and
the duplicate event posts the same variance journal twice. -/
theorem claim7_witness :
    (handleWebhook (fun _ _ => [1, 2]) (some "k")
      (fun _ => .ok []) wSettings (singleLedger "REF" 8000)
      (okEnv (vInv 8500 "REF")) [1, 2] [9]).2.2 = singleLedger "REF" 8000 ∧
    processEvents wSettings (singleLedger "REF" 8000) (okEnv (vInv 8500 "REF"))
        [{ resourceType := "INVOICE", resourceId := "b2" },
         { resourceType := "INVOICE", resourceId := "b2" }] =
      ((processEvent wSettings (singleLedger "REF" 8000) (okEnv (vInv 8500 "REF"))
          { resourceType := "INVOICE", resourceId := "b2" }).1 ++
        (processEvent wSettings (singleLedger "REF" 8000) (okEnv (vInv 8500 "REF"))
          { resourceType := "INVOICE", resourceId := "b2" }).1, none) := by
  have h := claim7_ledger_readonly (fun _ _ => [1, 2]) (some "k")
    (fun _ => .ok []) wSettings (singleLedger "REF" 8000)
    (okEnv (vInv 8500 "REF")) [1, 2] [9]
  refine ⟨h.1, ?_⟩
  have h2 := processEvent_processed wSettings (singleLedger "REF" 8000)
    (okEnv (vInv 8500 "REF")) { resourceType := "INVOICE", resourceId := "b2" }
    (vInv 8500 "REF") rfl rfl rfl (by simp [vInv, mkInv, jsStr])
    (by simp [vInv, mkInv, jsStr]) rfl (fun _ => rfl) rfl
  have := h.2 { resourceType := "INVOICE", resourceId := "b2" } _ h2
  rw [this, h2]

/-- `variance` in terms of the plain 0-default of the ledger lookup. -/
theorem varianceOf_eq (L : Ledger) (ref : String) (nb : ℚ) :
    varianceOf L ref nb = round2 (nb - (L ref).getD 0) := by
  rw [varianceOf, jsNum_zero_default]

/-- C2: for a processed bill event, a zero variance posts no journal; a
positive variance posts exactly one journal debiting the cost account and
crediting the accrual account by the variance; a negative variance posts
exactly one journal the other way round; every variance journal is
balanced (its line amounts sum to 0). -/
theorem claim2_variance_journal (s : Settings) (L : Ledger) (env : WebhookEnv)
    (ev : BillEvent) (inv : Invoice)
    (h1 : ev.resourceType = "INVOICE")
    (h2 : env.getInvoice ev.resourceId = .ok (some inv))
    (h3 : inv.type = "ACCPAY")
    (h4 : jsStr inv.status "" = "DRAFT" ∨ jsStr inv.status "" = "SUBMITTED")
    (h5 : jsStr inv.reference "" ≠ "")
    (h6 : env.updateInvoiceLines ev.resourceId (inv.lineItems.map (recodeLine s)) = .ok ())
    (h7 : s.autoApproveBills = true →
      env.updateInvoiceStatus ev.resourceId "AUTHORISED" = .ok ())
    (h8 : env.createManualJournal
        ("Accrual variance for " ++ jsStr inv.reference "")
        (varianceJournalLines s (jsStr inv.reference "")
          (varianceOf L (jsStr inv.reference "")
            (netBillOf (inv.lineItems.map (recodeLine s))))) = .ok ()) :
    (varianceOf L (jsStr inv.reference "")
        (netBillOf (inv.lineItems.map (recodeLine s))) = 0 →
      (processEvent s L env ev).1.filter Action.isJournal = []) ∧
    (0 < varianceOf L (jsStr inv.reference "")
        (netBillOf (inv.lineItems.map (recodeLine s))) →
      (processEvent s L env ev).1.filter Action.isJournal =
        [Action.createJournal ("Accrual variance for " ++ jsStr inv.reference "")
          [ { accountCode := s.costCode,
              lineAmount := varianceOf L (jsStr inv.reference "")
                (netBillOf (inv.lineItems.map (recodeLine s))),
              description := "Accrual variance " ++ jsStr inv.reference "" }
          , { accountCode := s.accrualCode,
              lineAmount := -varianceOf L (jsStr inv.reference "")
                (netBillOf (inv.lineItems.map (recodeLine s))),
              description := "Accrual variance " ++ jsStr inv.reference "" } ]]) ∧
    (varianceOf L (jsStr inv.reference "")
        (netBillOf (inv.lineItems.map (recodeLine s))) < 0 →
      (processEvent s L env ev).1.filter Action.isJournal =
        [Action.createJournal ("Accrual variance for " ++ jsStr inv.reference "")
          [ { accountCode := s.accrualCode,
              lineAmount := -varianceOf L (jsStr inv.reference "")
                (netBillOf (inv.lineItems.map (recodeLine s))),
              description := "Accrual release " ++ jsStr inv.reference "" }
          , { accountCode := s.costCode,
              lineAmount := varianceOf L (jsStr inv.reference "")
                (netBillOf (inv.lineItems.map (recodeLine s))),
              description := "Accrual release " ++ jsStr inv.reference "" } ]]) ∧
    ((varianceJournalLines s (jsStr inv.reference "")
        (varianceOf L (jsStr inv.reference "")
          (netBillOf (inv.lineItems.map (recodeLine s))))).map
        JournalLine.lineAmount).sum = 0 := by
  rw [processEvent_processed s L env ev inv h1 h2 h3 h4 h5 h6 h7 h8]
  refine ⟨?_, ?_, ?_, ?_⟩
  · intro hv0
    simp [List.filter_append, hv0, Action.isJournal, apply_ite (List.filter Action.isJournal)]
  · intro hv
    have hne : varianceOf L (jsStr inv.reference "")
        (netBillOf (inv.lineItems.map (recodeLine s))) ≠ 0 := ne_of_gt hv
    simp [List.filter_append, hne, Action.isJournal,
      apply_ite (List.filter Action.isJournal), varianceJournalLines, hv, abs_of_pos hv]
  · intro hv
    have hne : varianceOf L (jsStr inv.reference "")
        (netBillOf (inv.lineItems.map (recodeLine s))) ≠ 0 := ne_of_lt hv
    have hnp : ¬ (0 < varianceOf L (jsStr inv.reference "")
        (netBillOf (inv.lineItems.map (recodeLine s)))) := not_lt.mpr (le_of_lt hv)
    simp [List.filter_append, hne, Action.isJournal,
      apply_ite (List.filter Action.isJournal), varianceJournalLines, hnp, abs_of_neg hv]
  · by_cases hv : 0 < varianceOf L (jsStr inv.reference "")
        (netBillOf (inv.lineItems.map (recodeLine s)))
    · simp [varianceJournalLines, hv]
    · simp [varianceJournalLines, hv]

/-- C2 witness: an 8500 bill against an 8000 accrual posts exactly one
journal: Dr cost 500, Cr accrual 500. -/
theorem claim2_witness :
    (processEvent wSettings (singleLedger "REF" 8000) (okEnv (vInv 8500 "REF"))
        { resourceType := "INVOICE", resourceId := "b2" }).1.filter Action.isJournal =
      [Action.createJournal "Accrual variance for REF"
        [ { accountCode := "500", lineAmount := 500,
            description := "Accrual variance REF" }
        , { accountCode := "850", lineAmount := -500,
            description := "Accrual variance REF" } ]] := by
  have hnb : netBillOf (List.map (recodeLine wSettings) (vInv 8500 "REF").lineItems) = 8500 := by
    simp [netBillOf, recodeLine, vInv, mkInv, vLine, jsNum]
  have hv : varianceOf (singleLedger "REF" 8000) "REF"
      (netBillOf (List.map (recodeLine wSettings) (vInv 8500 "REF").lineItems)) = 500 := by
    rw [hnb]
    simp [varianceOf, singleLedger, jsNum, round2, round_eq]
    norm_num
  have h := (claim2_variance_journal wSettings (singleLedger "REF" 8000)
    (okEnv (vInv 8500 "REF")) { resourceType := "INVOICE", resourceId := "b2" }
    (vInv 8500 "REF") rfl rfl rfl (by simp [vInv, mkInv, jsStr])
    (by simp [vInv, mkInv, jsStr]) rfl (fun _ => rfl) rfl).2.1
  have href : jsStr (vInv 8500 "REF").reference "" = "REF" := by simp [vInv, mkInv, jsStr]
  rw [href, hv] at h
  have := h (by norm_num)
  simpa [wSettings] using this

/-- `netBill` as a sum over the mapped per-line products. -/
theorem netBillOf_eq_sum (lines : List LineItem) :
    netBillOf lines =
      (lines.map (fun l => jsNum l.unitAmount 0 * jsNum l.quantity 1)).sum := by
  rw [netBillOf, List.sum_eq_foldl, List.foldl_map]

/-- A bill line with quantity 0: `Number(l.quantity || 1)` turns the
falsy 0 into 1. -/
def zeroQtyLine : LineItem :=
  { description := some "impressions", quantity := some 0, unitAmount := some 100,
    accountCode := some "500", taxType := none }

/-- C1 counterexample: for the processed bill `[⟨qty 0, unit 100⟩]` the
reconciler computes `netBill = 100` (the falsy quantity defaults to 1)
whereas the claim's formula `Σ(unitAmount × quantity)` gives 0 — so the
claimed variance is 0.00 and no journal should follow, yet the code posts
a variance journal for 100. -/
theorem claim1_counterexample :
    netBillOf ((mkInv [zeroQtyLine] "Q").lineItems.map (recodeLine wSettings)) = 100 ∧
    netBillSpec ((mkInv [zeroQtyLine] "Q").lineItems.map (recodeLine wSettings)) = 0 ∧
    varianceOf Ledger.empty "Q"
      (netBillSpec ((mkInv [zeroQtyLine] "Q").lineItems.map (recodeLine wSettings))) = 0 ∧
    (processEvent wSettings Ledger.empty (okEnv (mkInv [zeroQtyLine] "Q"))
        { resourceType := "INVOICE", resourceId := "b9" }).1.filter Action.isJournal =
      [Action.createJournal "Accrual variance for Q"
        (varianceJournalLines wSettings "Q" 100)] := by
  have hnb : netBillOf ((mkInv [zeroQtyLine] "Q").lineItems.map (recodeLine wSettings)) = 100 := by
    norm_num [netBillOf, recodeLine, mkInv, zeroQtyLine, jsNum]
  have hns : netBillSpec ((mkInv [zeroQtyLine] "Q").lineItems.map (recodeLine wSettings)) = 0 := by
    simp [netBillSpec, recodeLine, mkInv, zeroQtyLine]
  have hv0 : varianceOf Ledger.empty "Q" (0 : ℚ) = 0 := by
    norm_num [varianceOf, Ledger.empty, jsNum, round2, round_eq]
  have hv : varianceOf Ledger.empty "Q"
      (netBillOf ((mkInv [zeroQtyLine] "Q").lineItems.map (recodeLine wSettings))) = 100 := by
    rw [hnb]
    norm_num [varianceOf, Ledger.empty, jsNum, round2, round_eq]
  have h := processEvent_processed wSettings Ledger.empty (okEnv (mkInv [zeroQtyLine] "Q"))
    { resourceType := "INVOICE", resourceId := "b9" } (mkInv [zeroQtyLine] "Q")
    rfl rfl rfl (by simp [mkInv, jsStr]) (by simp [mkInv, jsStr]) rfl (fun _ => rfl) rfl
  have href : jsStr (mkInv [zeroQtyLine] "Q").reference "" = "Q" := by simp [mkInv, jsStr]
  rw [href, hv] at h
  refine ⟨hnb, hns, hns ▸ hv0, ?_⟩
  rw [h]
  simp [List.filter_append, Action.isJournal,
    apply_ite (List.filter Action.isJournal), wSettings]

/-- C1 amended: for every processed bill event the reconciler computes
`netBill` as the sum over the recoded lines of `(unitAmount || 0) ×
(quantity || 1)` — absent *or zero* fields take the JS defaults — and the
journal decision is driven by `variance = round2(netBill − accrued)`; in
particular `netBill = 8000.004` against `accrued = 8000` rounds to a
variance of 0.00. -/
theorem claim1_variance_formula (s : Settings) (L : Ledger) (env : WebhookEnv)
    (ev : BillEvent) (inv : Invoice)
    (h1 : ev.resourceType = "INVOICE")
    (h2 : env.getInvoice ev.resourceId = .ok (some inv))
    (h3 : inv.type = "ACCPAY")
    (h4 : jsStr inv.status "" = "DRAFT" ∨ jsStr inv.status "" = "SUBMITTED")
    (h5 : jsStr inv.reference "" ≠ "")
    (h6 : env.updateInvoiceLines ev.resourceId (inv.lineItems.map (recodeLine s)) = .ok ())
    (h7 : s.autoApproveBills = true →
      env.updateInvoiceStatus ev.resourceId "AUTHORISED" = .ok ())
    (h8 : env.createManualJournal
        ("Accrual variance for " ++ jsStr inv.reference "")
        (varianceJournalLines s (jsStr inv.reference "")
          (varianceOf L (jsStr inv.reference "")
            (netBillOf (inv.lineItems.map (recodeLine s))))) = .ok ()) :
    netBillOf (inv.lineItems.map (recodeLine s)) =
      ((inv.lineItems.map (recodeLine s)).map
        (fun l => jsNum l.unitAmount 0 * jsNum l.quantity 1)).sum ∧
    (processEvent s L env ev).1.filter Action.isJournal =
      (if round2 (netBillOf (inv.lineItems.map (recodeLine s)) -
            (L (jsStr inv.reference "")).getD 0) = 0 then []
       else [Action.createJournal ("Accrual variance for " ++ jsStr inv.reference "")
          (varianceJournalLines s (jsStr inv.reference "")
            (round2 (netBillOf (inv.lineItems.map (recodeLine s)) -
              (L (jsStr inv.reference "")).getD 0)))]) ∧
    round2 ((8000004 : ℚ) / 1000 - 8000) = 0 := by
  refine ⟨netBillOf_eq_sum _, ?_, ?_⟩
  · rw [processEvent_processed s L env ev inv h1 h2 h3 h4 h5 h6 h7 h8,
      ← varianceOf_eq]
    by_cases hv : varianceOf L (jsStr inv.reference "")
        (netBillOf (inv.lineItems.map (recodeLine s))) = 0
    · simp [List.filter_append, hv, Action.isJournal,
        apply_ite (List.filter Action.isJournal)]
    · simp [List.filter_append, hv, Action.isJournal,
        apply_ite (List.filter Action.isJournal)]
  · rw [round2, round_eq]
    norm_num

/-- C1 amended witness: the 8000.004 bill against the 8000 accrual posts
no journal. -/
theorem claim1_witness :
    (processEvent wSettings (singleLedger "REF" 8000)
        (okEnv (vInv (8000004 / 1000) "REF"))
        { resourceType := "INVOICE", resourceId := "b2" }).1.filter Action.isJournal = [] ∧
    round2 ((8000004 : ℚ) / 1000 - 8000) = 0 := by
  have h := claim1_variance_formula wSettings (singleLedger "REF" 8000)
    (okEnv (vInv (8000004 / 1000) "REF"))
    { resourceType := "INVOICE", resourceId := "b2" } (vInv (8000004 / 1000) "REF")
    rfl rfl rfl (by simp [vInv, mkInv, jsStr]) (by simp [vInv, mkInv, jsStr])
    rfl (fun _ => rfl) rfl
  have hnb : netBillOf (List.map (recodeLine wSettings)
      (vInv (8000004 / 1000) "REF").lineItems) = 8000004 / 1000 := by
    norm_num [netBillOf, recodeLine, vInv, mkInv, vLine, jsNum]
  have href : jsStr (vInv (8000004 / 1000) "REF").reference "" = "REF" := by
    simp [vInv, mkInv, jsStr]
  refine ⟨?_, h.2.2⟩
  rw [h.2.1, href, hnb]
  have hz : round2 ((8000004 : ℚ) / 1000 - (singleLedger "REF" 8000 "REF").getD 0) = 0 := by
    norm_num [singleLedger, round2, round_eq]
  rw [hz]
  simp

/-- C8: for a processed bill, the first external action is the line
update whose lines are the recode of the incoming lines; recoding sets
each line's account code to the configured accrual-control code and
leaves description, quantity, unit amount, and tax identifier unchanged. -/
theorem claim8_recode_preserves (s : Settings) (L : Ledger) (env : WebhookEnv)
    (ev : BillEvent) (inv : Invoice)
    (h1 : ev.resourceType = "INVOICE")
    (h2 : env.getInvoice ev.resourceId = .ok (some inv))
    (h3 : inv.type = "ACCPAY")
    (h4 : jsStr inv.status "" = "DRAFT" ∨ jsStr inv.status "" = "SUBMITTED")
    (h5 : jsStr inv.reference "" ≠ "")
    (h6 : env.updateInvoiceLines ev.resourceId (inv.lineItems.map (recodeLine s)) = .ok ())
    (h7 : s.autoApproveBills = true →
      env.updateInvoiceStatus ev.resourceId "AUTHORISED" = .ok ())
    (h8 : env.createManualJournal
        ("Accrual variance for " ++ jsStr inv.reference "")
        (varianceJournalLines s (jsStr inv.reference "")
          (varianceOf L (jsStr inv.reference "")
            (netBillOf (inv.lineItems.map (recodeLine s))))) = .ok ()) :
    (processEvent s L env ev).1.head? =
      some (Action.updateLines ev.resourceId (inv.lineItems.map (recodeLine s))) ∧
    ∀ li ∈ inv.lineItems,
      (recodeLine s li).accountCode = some s.accrualCode ∧
      (recodeLine s li).description = li.description ∧
      (recodeLine s li).quantity = li.quantity ∧
      (recodeLine s li).unitAmount = li.unitAmount ∧
      (recodeLine s li).taxType = li.taxType := by
  constructor
  · rw [processEvent_processed s L env ev inv h1 h2 h3 h4 h5 h6 h7 h8]
    simp
  · intro li hli
    simp [recodeLine]

/-- C8 witness: the recoded 8500 line keeps its fields and moves to
account 850. -/
theorem claim8_witness :
    (processEvent wSettings (singleLedger "REF" 8000) (okEnv (vInv 8500 "REF"))
        { resourceType := "INVOICE", resourceId := "b2" }).1.head? =
      some (Action.updateLines "b2"
        [ { description := some "ads", quantity := some 1, unitAmount := some 8500,
            accountCode := some "850", taxType := some "INPUT2" } ]) := by
  have h := (claim8_recode_preserves wSettings (singleLedger "REF" 8000)
    (okEnv (vInv 8500 "REF")) { resourceType := "INVOICE", resourceId := "b2" }
    (vInv 8500 "REF") rfl rfl rfl (by simp [vInv, mkInv, jsStr])
    (by simp [vInv, mkInv, jsStr]) rfl (fun _ => rfl) rfl).1
  rw [h]
  simp [vInv, mkInv, vLine, recodeLine, wSettings]

/-- A 0.004 bill line (rounds to a 0.00 variance). -/
def tinyLine : LineItem :=
  { description := some "ads", quantity := some 1, unitAmount := some (1 / 250),
    accountCode := some "500", taxType := none }

/-- C10 counterexample: a bill whose non-empty reference has no ledger
entry and whose `netBill = 0.004` is non-zero is fully processed yet
posts no journal — the journal test is on the rounded variance, not on
`netBill` itself. -/
theorem claim10_counterexample :
    Ledger.empty "NOCAMP" = none ∧
    netBillOf ((mkInv [tinyLine] "NOCAMP").lineItems.map (recodeLine wSettings)) ≠ 0 ∧
    (processEvent wSettings Ledger.empty (okEnv (mkInv [tinyLine] "NOCAMP"))
        { resourceType := "INVOICE", resourceId := "b7" }).1.filter Action.isJournal = [] := by
  have hnb : netBillOf ((mkInv [tinyLine] "NOCAMP").lineItems.map (recodeLine wSettings)) =
      1 / 250 := by
    norm_num [netBillOf, recodeLine, mkInv, tinyLine, jsNum]
  have hv : varianceOf Ledger.empty "NOCAMP"
      (netBillOf ((mkInv [tinyLine] "NOCAMP").lineItems.map (recodeLine wSettings))) = 0 := by
    rw [hnb]
    norm_num [varianceOf, Ledger.empty, jsNum, round2, round_eq]
  have h := processEvent_processed wSettings Ledger.empty (okEnv (mkInv [tinyLine] "NOCAMP"))
    { resourceType := "INVOICE", resourceId := "b7" } (mkInv [tinyLine] "NOCAMP")
    rfl rfl rfl (by simp [mkInv, jsStr]) (by simp [mkInv, jsStr]) rfl (fun _ => rfl) rfl
  have href : jsStr (mkInv [tinyLine] "NOCAMP").reference "" = "NOCAMP" := by
    simp [mkInv, jsStr]
  rw [href, hv] at h
  refine ⟨rfl, by rw [hnb]; norm_num, ?_⟩
  rw [h]
  simp [List.filter_append, Action.isJournal,
    apply_ite (List.filter Action.isJournal)]

/-- C10 amended: a purchase bill whose non-empty reference has no ledger
entry is still fully processed with `accrued = 0`, so the variance is the
rounded `netBill`; a journal for that full amount is posted exactly when
the *rounded* `netBill` is non-zero. -/
theorem claim10_missing_ref (s : Settings) (L : Ledger) (env : WebhookEnv)
    (ev : BillEvent) (inv : Invoice)
    (h1 : ev.resourceType = "INVOICE")
    (h2 : env.getInvoice ev.resourceId = .ok (some inv))
    (h3 : inv.type = "ACCPAY")
    (h4 : jsStr inv.status "" = "DRAFT" ∨ jsStr inv.status "" = "SUBMITTED")
    (h5 : jsStr inv.reference "" ≠ "")
    (h6 : env.updateInvoiceLines ev.resourceId (inv.lineItems.map (recodeLine s)) = .ok ())
    (h7 : s.autoApproveBills = true →
      env.updateInvoiceStatus ev.resourceId "AUTHORISED" = .ok ())
    (h8 : env.createManualJournal
        ("Accrual variance for " ++ jsStr inv.reference "")
        (varianceJournalLines s (jsStr inv.reference "")
          (varianceOf L (jsStr inv.reference "")
            (netBillOf (inv.lineItems.map (recodeLine s))))) = .ok ())
    (hmiss : L (jsStr inv.reference "") = none) :
    varianceOf L (jsStr inv.reference "")
        (netBillOf (inv.lineItems.map (recodeLine s))) =
      round2 (netBillOf (inv.lineItems.map (recodeLine s))) ∧
    (round2 (netBillOf (inv.lineItems.map (recodeLine s))) ≠ 0 →
      (processEvent s L env ev).1.filter Action.isJournal =
        [Action.createJournal ("Accrual variance for " ++ jsStr inv.reference "")
          (varianceJournalLines s (jsStr inv.reference "")
            (round2 (netBillOf (inv.lineItems.map (recodeLine s)))))]) ∧
    (round2 (netBillOf (inv.lineItems.map (recodeLine s))) = 0 →
      (processEvent s L env ev).1.filter Action.isJournal = []) := by
  have hvar : varianceOf L (jsStr inv.reference "")
      (netBillOf (inv.lineItems.map (recodeLine s))) =
      round2 (netBillOf (inv.lineItems.map (recodeLine s))) := by
    rw [varianceOf_eq, hmiss]
    simp
  refine ⟨hvar, ?_, ?_⟩
  · intro hne
    rw [processEvent_processed s L env ev inv h1 h2 h3 h4 h5 h6 h7 h8, hvar]
    simp [List.filter_append, hne, Action.isJournal,
      apply_ite (List.filter Action.isJournal)]
  · intro hz
    rw [processEvent_processed s L env ev inv h1 h2 h3 h4 h5 h6 h7 h8, hvar]
    simp [List.filter_append, hz, Action.isJournal,
      apply_ite (List.filter Action.isJournal)]

/-- C10 amended witness: an 8500 bill with reference "NOCAMP" and no
ledger entry posts a variance journal for the full 8500. -/
theorem claim10_witness :
    (processEvent wSettings Ledger.empty (okEnv (vInv 8500 "NOCAMP"))
        { resourceType := "INVOICE", resourceId := "b8" }).1.filter Action.isJournal =
      [Action.createJournal "Accrual variance for NOCAMP"
        (varianceJournalLines wSettings "NOCAMP" 8500)] := by
  have hnb : netBillOf ((vInv 8500 "NOCAMP").lineItems.map (recodeLine wSettings)) = 8500 := by
    norm_num [netBillOf, recodeLine, vInv, mkInv, vLine, jsNum]
  have hr : round2 (netBillOf ((vInv 8500 "NOCAMP").lineItems.map (recodeLine wSettings))) =
      8500 := by
    rw [hnb]
    norm_num [round2, round_eq]
  have href : jsStr (vInv 8500 "NOCAMP").reference "" = "NOCAMP" := by
    simp [vInv, mkInv, jsStr]
  have h := (claim10_missing_ref wSettings Ledger.empty (okEnv (vInv 8500 "NOCAMP"))
    { resourceType := "INVOICE", resourceId := "b8" } (vInv 8500 "NOCAMP")
    rfl rfl rfl (by simp [vInv, mkInv, jsStr]) (by simp [vInv, mkInv, jsStr])
    rfl (fun _ => rfl) rfl (by rw [href]; rfl)).2.1
  rw [href, hr] at h
  exact h (by norm_num)

end XMA
